import Mathlib

/-!
Verification development for the satellite collision predictor backend
(`backend/predictor.py` and `backend/app.py`).

Shallow embedding conventions:
* Python floats are modelled as exact real numbers; the value `float("inf")`
  used as the running-minimum sentinel is modelled as `⊤` in `WithTop ℝ`
  (any finite float compares `<` against `inf`, exactly as `x < ⊤` holds in
  `WithTop ℝ`, and `inf < c` is false for finite `c`, exactly as `⊤ < ↑c`
  is false).
* Instants (`datetime` values) are modelled as rational numbers of minutes;
  `now + timedelta(minutes=t)` becomes `now + t`.  The `jday` recoding of an
  instant into a Julian-day pair is a bijective change of representation
  consumed only by the external SGP4 routine, so it is absorbed into the
  abstract propagator argument.
* The third-party SGP4 propagator (`satrec_obj.sgp4(jd, fr)`) is an external
  collaborator: it is a parameter `sgp4 : Sat → ℚ → ℤ × Vec3` returning an
  error code together with a position, exactly the shape the source consumes.
  Likewise `Satrec.twoline2rv` is a parameter `String → String → Option Sat`
  (`none` models the parse exception caught by `load_tles`).
* Python dicts keyed by strings are association lists with dict semantics:
  updating an existing key keeps its position, a new key is appended.
-/

namespace SatPred

/-- A 3-component position vector (km), as produced by `np.array(r)`. -/
abbrev Vec3 : Type := ℚ × ℚ × ℚ

/-- Componentwise `pos1 - pos2` (numpy vector subtraction). -/
def vsub (a b : Vec3) : Vec3 := (a.1 - b.1, a.2.1 - b.2.1, a.2.2 - b.2.2)

/-- `np.linalg.norm v`: the Euclidean norm of a 3-vector. -/
noncomputable def pyNorm (v : Vec3) : ℝ :=
  Real.sqrt ((v.1 : ℝ) ^ 2 + (v.2.1 : ℝ) ^ 2 + (v.2.2 : ℝ) ^ 2)

/-- `predictor.get_position(satrec_obj, dt)`: run the propagator at instant
`dt`; a nonzero error code yields `None`, otherwise the position vector.
The `jday` conversion of `dt` is absorbed into the abstract `sgp4`. -/
def get_position {Sat : Type} (sgp4 : Sat → ℚ → ℤ × Vec3) (satrec_obj : Sat)
    (dt : ℚ) : Option Vec3 :=
  let er := sgp4 satrec_obj dt
  if er.1 ≠ 0 then none else some er.2

/-- Python `range(0, stop, step)` for a nonnegative step: the values
`0, step, 2*step, …` below `stop` (empty when `step = 0`, where Python would
instead raise `ValueError`; every claim assumes a positive step). -/
def pyRange (stop step : ℕ) : List ℕ :=
  List.range' 0 ((stop + step - 1) / step) step

/-- One iteration of the `for t in range(...)` loop body of
`compute_min_distance`: compute both positions at `dt = now + t`, and when
both are available update the running minimum under strict `<`. -/
noncomputable def loopStep {Sat : Type} (sgp4 : Sat → ℚ → ℤ × Vec3)
    (sat1 sat2 : Sat) (now : ℚ) (min_dist : WithTop ℝ) (t : ℕ) : WithTop ℝ :=
  let dt : ℚ := now + (t : ℚ)
  match get_position sgp4 sat1 dt, get_position sgp4 sat2 dt with
  | some pos1, some pos2 =>
      let dist : ℝ := pyNorm (vsub pos1 pos2)
      if (dist : WithTop ℝ) < min_dist then (dist : WithTop ℝ) else min_dist
  | _, _ => min_dist

/-- `predictor.compute_min_distance(sat1, sat2, hours=24, step_minutes=5)`:
walk the sample instants `now + t` for `t in range(0, hours*60, step_minutes)`
(`now` is the `datetime.utcnow()` reading at the call, here an explicit
argument), skip instants where either position is unavailable, and keep the
running minimum under strict `<` (the loop body is `loopStep`), starting from
the `float("inf")` sentinel.  The source returns this single scalar — no
closest-approach instant. -/
noncomputable def compute_min_distance {Sat : Type} (sgp4 : Sat → ℚ → ℤ × Vec3)
    (sat1 sat2 : Sat) (now : ℚ) (hours : ℕ := 24) (step_minutes : ℕ := 5) :
    WithTop ℝ :=
  (pyRange (hours * 60) step_minutes).foldl (loopStep sgp4 sat1 sat2 now) ⊤

/-- A string-keyed Python dict of satellite records, as an association list. -/
abbrev Catalog (Sat : Type) : Type := List (String × Sat)

/-- Dict lookup: `satellites[n]` / `n in satellites`. -/
def dlookup {Sat : Type} (n : String) : Catalog Sat → Option Sat
  | [] => none
  | (k, v) :: rest => if n = k then some v else dlookup n rest

/-- Dict assignment `satellites[name] = sat`: an existing key keeps its
position and gets the new value, a new key is appended. -/
def dinsert {Sat : Type} (k : String) (v : Sat) : Catalog Sat → Catalog Sat
  | [] => [(k, v)]
  | (k', v') :: rest =>
      if k = k' then (k, v) :: rest else (k', v') :: dinsert k v rest

/-- Python `s.strip()`: drop whitespace from both ends. -/
def pyStrip (s : String) : String :=
  ⟨((s.data.dropWhile Char.isWhitespace).reverse.dropWhile
      Char.isWhitespace).reverse⟩

/-- The consecutive 3-line groups of one file's lines, each component
stripped: the loop `for i in range(0, len(lines), 3): if i + 2 < len(lines)`
of `load_tles`; a trailing group of fewer than 3 lines is dropped. -/
def tleGroups : List String → List (String × String × String)
  | name :: l1 :: l2 :: rest =>
      (pyStrip name, pyStrip l1, pyStrip l2) :: tleGroups rest
  | _ => []

/-- `predictor.load_tles(*file_paths)`: fold the 3-line groups of every file
into one dict; a group whose element lines fail to parse
(`Satrec.twoline2rv` raises, modelled by `none`) is skipped with a printed
warning and contributes nothing.  `file_contents` is the list of each file's
lines, in the order the paths are given. -/
def load_tles {Sat : Type} (twoline2rv : String → String → Option Sat)
    (file_contents : List (List String)) : Catalog Sat :=
  file_contents.foldl (fun satellites lines =>
    (tleGroups lines).foldl (fun sats g =>
      match twoline2rv g.2.1 g.2.2 with
      | some sat => dinsert g.1 sat sats
      | none => sats) satellites) []

/-- The risk classification chain of `app.predict` (app.py lines 52–63),
as a function of the float `min_dist`: strict `<` against 5, 50, 200, else
LOW; the pair is (risk, risk_msg). -/
noncomputable def classify (min_dist : WithTop ℝ) : String × String :=
  if min_dist < ((5 : ℝ) : WithTop ℝ) then
    ("CRITICAL", "High probability of collision. Immediate evasive action required.")
  else if min_dist < ((50 : ℝ) : WithTop ℝ) then
    ("ELEVATED", "Satellites will pass dangerously close. Monitoring recommended.")
  else if min_dist < ((200 : ℝ) : WithTop ℝ) then
    ("MODERATE", "Close approach detected, but no immediate collision risk.")
  else
    ("LOW", "Satellites remain at safe separation distance.")

/-- `float(round(min_dist, 2))`: rounding to 2 decimals; `round` of the
`inf` sentinel is `inf`.  (Python rounds binary floats half-to-even; on the
exact reals of this model we round half-up, a difference no claim touches.) -/
noncomputable def round2 : WithTop ℝ → WithTop ℝ
  | ⊤ => ⊤
  | (x : ℝ) => (((round (x * 100) : ℤ) : ℝ) / 100 : ℝ)

/-- The JSON body a successful `/predict` would return (app.py lines 69–76). -/
structure PredictResponse where
  sat1 : String
  sat2 : String
  min_distance_km : WithTop ℝ
  closest_approach_time : Option ℚ
  risk_category : String
  risk_message : String

/-- app.py lines 52–76: what `predict` does with an unpacked
`(min_dist, closest_time)` — classify the risk and build the JSON body.
(In the source as it stands these lines are unreachable: the unpacking on
line 46 raises first; see `predict`.) -/
noncomputable def respond (sat1_name sat2_name : String) (min_dist : WithTop ℝ)
    (closest_time : Option ℚ) : PredictResponse :=
  { sat1 := sat1_name
    sat2 := sat2_name
    min_distance_km := round2 min_dist
    closest_approach_time := closest_time
    risk_category := (classify min_dist).1
    risk_message := (classify min_dist).2 }

/-- The outcome of a `/predict` request. `badRequest` is `jsonify({...}), 400`;
`typeError` is an uncaught Python `TypeError` escaping the handler (Flask
turns it into a 500 with no JSON body); `ok` is the success return of
app.py line 69, which the source can never reach. -/
inductive PredictResult : Type where
  | badRequest (status : ℕ) (error : String)
  | typeError
  | ok (response : PredictResponse)

/-- `request.args.get("sat1")` gives `None` when the query parameter is
missing; `None` is never a key of the string-keyed dict, so looking a missing
parameter up fails exactly like an unknown name. -/
def olookup {Sat : Type} (n : Option String) (c : Catalog Sat) : Option Sat :=
  match n with
  | none => none
  | some name => dlookup name c

/-- `app.predict` (app.py lines 37–76): fetch the two query parameters, return
400 when either name is not a key of the catalog (`not in satellites`,
with `olookup` combining `args.get` and the key test), otherwise run
`compute_min_distance` on the two records.  The source then executes
`min_dist, closest_time = compute_min_distance(...)`: unpacking the float
returned by `compute_min_distance` raises `TypeError`, so the handler never
builds a response. -/
noncomputable def predict {Sat : Type} (satellites : Catalog Sat)
    (sgp4 : Sat → ℚ → ℤ × Vec3) (now : ℚ)
    (sat1_name sat2_name : Option String) : PredictResult :=
  match olookup sat1_name satellites, olookup sat2_name satellites with
  | some sat1, some sat2 =>
      let _unpacked := compute_min_distance sgp4 sat1 sat2 now
      PredictResult.typeError
  | _, _ => PredictResult.badRequest 400 "Satellite not found in local TLEs"

/-! ### Specification-side definitions

These follow the spec's words (§4.3 Conjunction Sampler, §4.1 Loader) and are
compared with the source-embedded definitions above. -/

/-- Spec §4.3: the sample instants `windowStart + k*stepMinutes` for
`k*stepMinutes < windowHours*60`, as the source enumerates them. -/
def sampleInstants (now : ℚ) (hours step_minutes : ℕ) : List ℚ :=
  (pyRange (hours * 60) step_minutes).map (fun t : ℕ => now + (t : ℚ))

/-- The Euclidean distance between the two satellites at one instant, or
`none` when either position is unavailable (spec §4.3: such an instant
contributes no candidate). -/
noncomputable def pairDistanceAt {Sat : Type} (sgp4 : Sat → ℚ → ℤ × Vec3)
    (sat1 sat2 : Sat) (dt : ℚ) : Option ℝ :=
  match get_position sgp4 sat1 dt, get_position sgp4 sat2 dt with
  | some pos1, some pos2 => some (pyNorm (vsub pos1 pos2))
  | _, _ => none

/-- Spec §4.3: the candidate distances — one for every sample instant at
which both positions are available. -/
noncomputable def availableDistances {Sat : Type} (sgp4 : Sat → ℚ → ℤ × Vec3)
    (sat1 sat2 : Sat) (now : ℚ) (hours step_minutes : ℕ) : List ℝ :=
  (sampleInstants now hours step_minutes).filterMap
    (pairDistanceAt sgp4 sat1 sat2)

/-- The minimum of a list of reals, `⊤` ("no valid sample") for the empty
list. -/
noncomputable def listMin (l : List ℝ) : WithTop ℝ :=
  l.foldr (fun d m => min (d : WithTop ℝ) m) ⊤

/-- Spec §4.1: the successfully parsed `(name, record)` entries of all
sources, in processing order; malformed groups contribute nothing. -/
def successEntries {Sat : Type} (twoline2rv : String → String → Option Sat)
    (file_contents : List (List String)) : List (String × Sat) :=
  (file_contents.map tleGroups).flatten.filterMap
    (fun g => (twoline2rv g.2.1 g.2.2).map (fun s => (g.1, s)))

/-- Folding dict inserts over a list of entries. -/
def insertAll {Sat : Type} (c : Catalog Sat) (es : List (String × Sat)) :
    Catalog Sat :=
  es.foldl (fun acc e => dinsert e.1 e.2 acc) c

/-- Spec §4.1 (last-write-wins): the value of the last entry carrying a given
name, if any. -/
def lastParsed {Sat : Type} (n : String) (es : List (String × Sat)) :
    Option Sat :=
  (es.reverse.find? (fun e => e.1 == n)).map Prod.snd

/-! ### Helper lemmas: the sampler's fold computes a list minimum -/

theorem ite_lt_eq_min {α : Type} [LinearOrder α] (a b : α) :
    (if a < b then a else b) = min a b := by
  split
  · exact (min_eq_left (le_of_lt (by assumption))).symm
  · exact (min_eq_right (le_of_not_lt (by assumption))).symm

theorem listMin_nil : listMin [] = ⊤ := rfl

theorem listMin_cons (d : ℝ) (l : List ℝ) :
    listMin (d :: l) = min (d : WithTop ℝ) (listMin l) := rfl

theorem listMin_le_of_mem {d : ℝ} {l : List ℝ} (h : d ∈ l) :
    listMin l ≤ (d : WithTop ℝ) := by
  induction l with
  | nil => cases h
  | cons e l ih =>
      rcases List.mem_cons.mp h with h | h
      · subst h; exact min_le_left _ _
      · exact le_trans (min_le_right _ _) (ih h)

theorem le_listMin {m : WithTop ℝ} {l : List ℝ}
    (h : ∀ d ∈ l, m ≤ (d : WithTop ℝ)) : m ≤ listMin l := by
  induction l with
  | nil => exact le_top
  | cons e l ih =>
      exact le_min (h e (List.mem_cons_self e l))
        (ih fun d hd => h d (List.mem_cons_of_mem e hd))

theorem loopStep_eq_pairDistanceAt {Sat : Type} (sgp4 : Sat → ℚ → ℤ × Vec3)
    (sat1 sat2 : Sat) (now : ℚ) (m : WithTop ℝ) (t : ℕ) :
    loopStep sgp4 sat1 sat2 now m t
      = match pairDistanceAt sgp4 sat1 sat2 (now + (t : ℚ)) with
        | some d => if (d : WithTop ℝ) < m then (d : WithTop ℝ) else m
        | none => m := by
  cases h1 : get_position sgp4 sat1 (now + (t : ℚ)) <;>
    cases h2 : get_position sgp4 sat2 (now + (t : ℚ)) <;>
      simp [loopStep, pairDistanceAt, h1, h2]

theorem foldl_loopStep {Sat : Type} (sgp4 : Sat → ℚ → ℤ × Vec3)
    (sat1 sat2 : Sat) (now : ℚ) (L : List ℕ) (acc : WithTop ℝ) :
    L.foldl (loopStep sgp4 sat1 sat2 now) acc
      = min acc (listMin (L.filterMap
          (fun t : ℕ => pairDistanceAt sgp4 sat1 sat2 (now + (t : ℚ))))) := by
  induction L generalizing acc with
  | nil => simp [listMin_nil]
  | cons t L ih =>
      rw [List.foldl_cons, ih, List.filterMap_cons, loopStep_eq_pairDistanceAt]
      cases hf : pairDistanceAt sgp4 sat1 sat2 (now + (t : ℚ)) with
      | none => rfl
      | some d =>
          show min (if (d : WithTop ℝ) < acc then (d : WithTop ℝ) else acc)
              (listMin (L.filterMap
                (fun t : ℕ => pairDistanceAt sgp4 sat1 sat2 (now + (t : ℚ)))))
              = _
          rw [listMin_cons, ite_lt_eq_min, min_assoc, min_left_comm]

theorem compute_min_distance_eq_listMin {Sat : Type}
    (sgp4 : Sat → ℚ → ℤ × Vec3) (sat1 sat2 : Sat) (now : ℚ)
    (hours step_minutes : ℕ) :
    compute_min_distance sgp4 sat1 sat2 now hours step_minutes
      = listMin (availableDistances sgp4 sat1 sat2 now hours step_minutes) := by
  unfold compute_min_distance availableDistances sampleInstants
  rw [foldl_loopStep, List.filterMap_map]
  exact min_eq_right le_top

theorem lt_ceil_div {i stop step : ℕ} (hstep : 0 < step) :
    i < (stop + step - 1) / step ↔ i * step < stop := by
  rw [Nat.lt_iff_add_one_le, Nat.le_div_iff_mul_le hstep, Nat.add_mul,
    Nat.one_mul]
  generalize i * step = m
  omega

theorem mem_pyRange {stop step t : ℕ} (hstep : 0 < step) :
    t ∈ pyRange stop step ↔ ∃ k, t = k * step ∧ k * step < stop := by
  unfold pyRange
  rw [List.mem_range']
  constructor
  · rintro ⟨i, hi, ht⟩
    rw [Nat.zero_add, Nat.mul_comm] at ht
    exact ⟨i, ht, (lt_ceil_div hstep).mp hi⟩
  · rintro ⟨k, rfl, hk⟩
    exact ⟨k, (lt_ceil_div hstep).mpr hk, by rw [Nat.zero_add, Nat.mul_comm]⟩

theorem compute_min_distance_all_none {Sat : Type}
    (sgp4 : Sat → ℚ → ℤ × Vec3) (sat1 sat2 : Sat) (now : ℚ)
    (hours step_minutes : ℕ)
    (h : ∀ t ∈ pyRange (hours * 60) step_minutes,
      pairDistanceAt sgp4 sat1 sat2 (now + (t : ℚ)) = none) :
    compute_min_distance sgp4 sat1 sat2 now hours step_minutes = ⊤ := by
  rw [compute_min_distance_eq_listMin]
  unfold availableDistances
  rw [List.filterMap_eq_nil_iff.mpr]
  · rfl
  · intro dt hdt
    obtain ⟨u, hu, rfl⟩ := List.mem_map.mp hdt
    exact h u hu

/-! ### Helper lemmas: dict semantics of the loader -/

theorem dlookup_dinsert {Sat : Type} (n k : String) (v : Sat)
    (c : Catalog Sat) :
    dlookup n (dinsert k v c) = if n = k then some v else dlookup n c := by
  induction c with
  | nil => simp [dinsert, dlookup]
  | cons e rest ih =>
      obtain ⟨k', v'⟩ := e
      by_cases hk : k = k'
      · subst hk
        by_cases hn : n = k <;> simp [dinsert, dlookup, hn]
      · by_cases hn : n = k'
        · subst hn
          have : ¬ n = k := fun h => hk h.symm
          simp [dinsert, dlookup, hk, this]
        · simp [dinsert, dlookup, hk, hn, ih]

theorem keys_dinsert {Sat : Type} (k : String) (v : Sat) (c : Catalog Sat) :
    (dinsert k v c).map Prod.fst
      = if k ∈ c.map Prod.fst then c.map Prod.fst
        else c.map Prod.fst ++ [k] := by
  induction c with
  | nil => simp [dinsert]
  | cons e rest ih =>
      obtain ⟨k', v'⟩ := e
      by_cases hk : k = k'
      · subst hk; simp [dinsert]
      · have : ¬ k' = k := fun h => hk h.symm
        by_cases hmem : k ∈ rest.map Prod.fst <;>
          simp [dinsert, hk, this, hmem, ih]

theorem keys_toFinset_dinsert {Sat : Type} (k : String) (v : Sat)
    (c : Catalog Sat) :
    ((dinsert k v c).map Prod.fst).toFinset
      = insert k (c.map Prod.fst).toFinset := by
  rw [keys_dinsert]
  by_cases hmem : k ∈ c.map Prod.fst
  · rw [if_pos hmem]
    exact (Finset.insert_eq_self.mpr (List.mem_toFinset.mpr hmem)).symm
  · rw [if_neg hmem]
    ext a
    simp [or_comm]

theorem nodup_keys_dinsert {Sat : Type} (k : String) (v : Sat)
    {c : Catalog Sat} (h : (c.map Prod.fst).Nodup) :
    ((dinsert k v c).map Prod.fst).Nodup := by
  rw [keys_dinsert]
  by_cases hmem : k ∈ c.map Prod.fst
  · rw [if_pos hmem]; exact h
  · rw [if_neg hmem]
    simp [List.nodup_append, h, hmem]

theorem insertAll_append {Sat : Type} (c : Catalog Sat)
    (es fs : List (String × Sat)) :
    insertAll c (es ++ fs) = insertAll (insertAll c es) fs :=
  List.foldl_append _ _ _ _

theorem lastParsed_cons {Sat : Type} (n : String) (e : String × Sat)
    (es : List (String × Sat)) :
    lastParsed n (e :: es)
      = match lastParsed n es with
        | some v => some v
        | none => if e.1 = n then some e.2 else none := by
  unfold lastParsed
  rw [List.reverse_cons, List.find?_append]
  cases hfind : es.reverse.find? (fun x => x.1 == n) with
  | some w => simp [Option.orElse, hfind]
  | none =>
      by_cases he : e.1 = n
      · have hb : (e.1 == n) = true := beq_iff_eq.mpr he
        simp [Option.orElse, hfind, List.find?, hb, he]
      · have hb : (e.1 == n) = false := beq_eq_false_iff_ne.mpr he
        simp [Option.orElse, hfind, List.find?, hb, he]

theorem dlookup_insertAll {Sat : Type} (n : String) (c : Catalog Sat)
    (es : List (String × Sat)) :
    dlookup n (insertAll c es)
      = match lastParsed n es with
        | some v => some v
        | none => dlookup n c := by
  induction es generalizing c with
  | nil => rfl
  | cons e es ih =>
      show dlookup n (insertAll (dinsert e.1 e.2 c) es) = _
      rw [ih, lastParsed_cons, dlookup_dinsert]
      cases lastParsed n es with
      | some w => rfl
      | none =>
          by_cases hn : n = e.1
          · subst hn; simp
          · have : ¬ e.1 = n := fun h => hn h.symm
            simp [hn, this]

theorem keys_toFinset_insertAll {Sat : Type} (c : Catalog Sat)
    (es : List (String × Sat)) :
    ((insertAll c es).map Prod.fst).toFinset
      = (c.map Prod.fst).toFinset ∪ (es.map Prod.fst).toFinset := by
  induction es generalizing c with
  | nil => simp [insertAll]
  | cons e es ih =>
      show ((insertAll (dinsert e.1 e.2 c) es).map Prod.fst).toFinset = _
      rw [ih, keys_toFinset_dinsert]
      ext a
      simp


theorem nodup_keys_insertAll {Sat : Type} {c : Catalog Sat}
    (es : List (String × Sat)) (h : (c.map Prod.fst).Nodup) :
    ((insertAll c es).map Prod.fst).Nodup := by
  induction es generalizing c with
  | nil => exact h
  | cons e es ih => exact ih (nodup_keys_dinsert e.1 e.2 h)

/-- The successfully parsed `(name, record)` entries of one file's groups. -/
def entriesOf {Sat : Type} (twoline2rv : String → String → Option Sat)
    (gs : List (String × String × String)) : List (String × Sat) :=
  gs.filterMap (fun g => (twoline2rv g.2.1 g.2.2).map (fun s => (g.1, s)))

theorem groups_foldl_eq_insertAll {Sat : Type}
    (twoline2rv : String → String → Option Sat)
    (gs : List (String × String × String)) (c : Catalog Sat) :
    gs.foldl (fun sats g =>
      match twoline2rv g.2.1 g.2.2 with
      | some sat => dinsert g.1 sat sats
      | none => sats) c
      = insertAll c (entriesOf twoline2rv gs) := by
  induction gs generalizing c with
  | nil => rfl
  | cons g gs ih =>
      rw [List.foldl_cons]
      unfold entriesOf
      rw [List.filterMap_cons]
      cases hp : twoline2rv g.2.1 g.2.2 with
      | none => exact ih c
      | some sat =>
          simp only [Option.map_some]
          rw [ih (dinsert g.1 sat c)]
          rfl

theorem load_tles_eq_insertAll {Sat : Type}
    (twoline2rv : String → String → Option Sat)
    (file_contents : List (List String)) :
    load_tles twoline2rv file_contents
      = insertAll [] (successEntries twoline2rv file_contents) := by
  unfold load_tles successEntries
  have main : ∀ (files : List (List String)) (c : Catalog Sat),
      files.foldl (fun satellites lines =>
        (tleGroups lines).foldl (fun sats g =>
          match twoline2rv g.2.1 g.2.2 with
          | some sat => dinsert g.1 sat sats
          | none => sats) satellites) c
      = insertAll c (entriesOf twoline2rv (files.map tleGroups).flatten) := by
    intro files
    induction files with
    | nil => intro c; rfl
    | cons lines files ih =>
        intro c
        rw [List.foldl_cons, ih, List.map_cons, List.flatten_cons]
        unfold entriesOf
        rw [List.filterMap_append, ← entriesOf, ← entriesOf,
          insertAll_append, groups_foldl_eq_insertAll]
  exact main file_contents []

/-! ### Claims about the loader -/

/-- A parser accepting every element-line pair, for concrete loader inputs. -/
def parseAll : String → String → Option Unit := fun _ _ => some ()

/-- C6 (counterexample): one source whose two well-formed 3-line groups both
parse but share the name `X`: both groups parse successfully (2 successful
groups) yet the catalog has 1 entry, so the catalog count does not equal the
number of successfully parsed groups. -/
theorem C6_counterexample :
    (load_tles parseAll [["X", "1", "2", "X", "3", "4"]]).length
      ≠ (successEntries parseAll [["X", "1", "2", "X", "3", "4"]]).length ∧
    (successEntries parseAll [["X", "1", "2", "X", "3", "4"]]).length = 2 ∧
    (load_tles parseAll [["X", "1", "2", "X", "3", "4"]]).length = 1 := by
  decide

/-- C6 (amended): `load_tles` never fails on a malformed entry — the catalog
is exactly the dict fold of the successfully parsed entries, a malformed
group contributing nothing — and the number of entries equals the number of
DISTINCT NAMES among the groups that parsed successfully (a repeated name is
overwritten, not duplicated). -/
theorem C6_loader_amended {Sat : Type}
    (twoline2rv : String → String → Option Sat)
    (file_contents : List (List String)) :
    load_tles twoline2rv file_contents
      = insertAll [] (successEntries twoline2rv file_contents) ∧
    (load_tles twoline2rv file_contents).length
      = ((successEntries twoline2rv file_contents).map Prod.fst).dedup.length := by
  refine ⟨load_tles_eq_insertAll _ _, ?_⟩
  have hnod : ((load_tles twoline2rv file_contents).map Prod.fst).Nodup := by
    rw [load_tles_eq_insertAll]
    exact nodup_keys_insertAll _ (by simp)
  have h3 : ((load_tles twoline2rv file_contents).map Prod.fst).toFinset
      = ((successEntries twoline2rv file_contents).map Prod.fst).toFinset := by
    rw [load_tles_eq_insertAll, keys_toFinset_insertAll]
    simp
  calc (load_tles twoline2rv file_contents).length
      = ((load_tles twoline2rv file_contents).map Prod.fst).length := by
        rw [List.length_map]
    _ = ((load_tles twoline2rv file_contents).map Prod.fst).toFinset.card :=
        (List.toFinset_card_of_nodup hnod).symm
    _ = ((successEntries twoline2rv file_contents).map Prod.fst).toFinset.card := by
        rw [h3]
    _ = ((successEntries twoline2rv file_contents).map Prod.fst).dedup.length :=
        List.card_toFinset _

/-- C7: the loaded catalog holds at most one entry per name (its keys are
distinct), and looking a name up yields exactly the LAST successfully parsed
entry carrying that name, across all sources in order: last-write-wins. -/
theorem C7_last_write_wins {Sat : Type}
    (twoline2rv : String → String → Option Sat)
    (file_contents : List (List String)) :
    ((load_tles twoline2rv file_contents).map Prod.fst).Nodup ∧
    ∀ n : String, dlookup n (load_tles twoline2rv file_contents)
      = lastParsed n (successEntries twoline2rv file_contents) := by
  constructor
  · rw [load_tles_eq_insertAll]
    exact nodup_keys_insertAll _ (by simp)
  · intro n
    rw [load_tles_eq_insertAll, dlookup_insertAll]
    cases lastParsed n (successEntries twoline2rv file_contents) <;> rfl

/-! ### Claims about the risk classifier -/

/-- C4: the classification chain is total over the nonnegative reals with
exact half-open boundaries — `[0,5) ↦ CRITICAL`, `[5,50) ↦ ELEVATED` (so 5.0
itself is ELEVATED), `[50,200) ↦ MODERATE`, `[200,∞) ↦ LOW` (so 200.0 itself
is LOW) — each region paired with its fixed advisory message, and the four
(category, message) outcomes are pairwise distinct. -/
theorem C4_classify_boundaries (d : ℝ) (hd : 0 ≤ d) :
    (d < 5 → classify ((d : ℝ) : WithTop ℝ)
      = ("CRITICAL", "High probability of collision. Immediate evasive action required.")) ∧
    (5 ≤ d → d < 50 → classify ((d : ℝ) : WithTop ℝ)
      = ("ELEVATED", "Satellites will pass dangerously close. Monitoring recommended.")) ∧
    (50 ≤ d → d < 200 → classify ((d : ℝ) : WithTop ℝ)
      = ("MODERATE", "Close approach detected, but no immediate collision risk.")) ∧
    (200 ≤ d → classify ((d : ℝ) : WithTop ℝ)
      = ("LOW", "Satellites remain at safe separation distance.")) ∧
    ([("CRITICAL", "High probability of collision. Immediate evasive action required."),
      ("ELEVATED", "Satellites will pass dangerously close. Monitoring recommended."),
      ("MODERATE", "Close approach detected, but no immediate collision risk."),
      ("LOW", "Satellites remain at safe separation distance.")].Pairwise
        (fun a b => a ≠ b)) := by
  refine ⟨?_, ?_, ?_, ?_, by decide⟩
  · intro h5
    unfold classify
    rw [if_pos (WithTop.coe_lt_coe.mpr h5)]
  · intro h5 h50
    unfold classify
    rw [if_neg (by rw [WithTop.coe_lt_coe]; exact not_lt.mpr h5),
      if_pos (WithTop.coe_lt_coe.mpr h50)]
  · intro h50 h200
    unfold classify
    rw [if_neg (by rw [WithTop.coe_lt_coe]; exact not_lt.mpr (by linarith)),
      if_neg (by rw [WithTop.coe_lt_coe]; exact not_lt.mpr h50),
      if_pos (WithTop.coe_lt_coe.mpr h200)]
  · intro h200
    unfold classify
    rw [if_neg (by rw [WithTop.coe_lt_coe]; exact not_lt.mpr (by linarith)),
      if_neg (by rw [WithTop.coe_lt_coe]; exact not_lt.mpr (by linarith)),
      if_neg (by rw [WithTop.coe_lt_coe]; exact not_lt.mpr h200)]

/-- C4 witness: at the boundary input 5.0 the classifier yields ELEVATED
(with its fixed message), not CRITICAL. -/
theorem C4_classify_witness :
    classify (((5 : ℝ)) : WithTop ℝ)
      = ("ELEVATED", "Satellites will pass dangerously close. Monitoring recommended.") :=
  (C4_classify_boundaries 5 (by norm_num)).2.1 (le_refl 5) (by norm_num)

/-! ### Claims about the conjunction sampler -/

/-- C8: the sampler walks exactly the instants `now + k*step_minutes` with
`k*step_minutes < hours*60`, an instant with an unavailable position
contributes no candidate, and the returned value is the minimum (running
minimum under strict `<`) of the candidate Euclidean distances — `⊤`
(the `inf` sentinel) when there is none. -/
theorem C8_sampler_minimum {Sat : Type} (sgp4 : Sat → ℚ → ℤ × Vec3)
    (sat1 sat2 : Sat) (now : ℚ) (hours step_minutes : ℕ)
    (hstep : 0 < step_minutes) :
    compute_min_distance sgp4 sat1 sat2 now hours step_minutes
      = listMin (availableDistances sgp4 sat1 sat2 now hours step_minutes) ∧
    ∀ dt : ℚ, dt ∈ sampleInstants now hours step_minutes ↔
      ∃ k : ℕ, dt = now + ((k * step_minutes : ℕ) : ℚ)
        ∧ k * step_minutes < hours * 60 := by
  refine ⟨compute_min_distance_eq_listMin sgp4 sat1 sat2 now hours step_minutes, ?_⟩
  intro dt
  unfold sampleInstants
  rw [List.mem_map]
  constructor
  · rintro ⟨t, ht, rfl⟩
    obtain ⟨k, rfl, hk⟩ := (mem_pyRange hstep).mp ht
    exact ⟨k, rfl, hk⟩
  · rintro ⟨k, rfl, hk⟩
    exact ⟨k * step_minutes, (mem_pyRange hstep).mpr ⟨k, rfl, hk⟩, rfl⟩

/-- A trivial concrete propagator: no error, always at the origin. -/
def originProp : Unit → ℚ → ℤ × Vec3 := fun _ _ => (0, (0, 0, 0))

/-- C8 witness: the sampler characterization at a concrete propagator and
the source's default window (24 h, 5 min). -/
theorem C8_sampler_minimum_witness :
    0 < 5 ∧
    (compute_min_distance originProp () () 0 24 5
      = listMin (availableDistances originProp () () 0 24 5) ∧
    ∀ dt : ℚ, dt ∈ sampleInstants 0 24 5 ↔
      ∃ k : ℕ, dt = 0 + ((k * 5 : ℕ) : ℚ) ∧ k * 5 < 24 * 60) :=
  ⟨by decide, C8_sampler_minimum originProp () () 0 24 5 (by decide)⟩

/-- C9: if one window's sample instants are all among another's, the minimum
reported over the larger window is at most the minimum over the smaller one
(restricting the window can only increase the reported minimum). -/
theorem C9_window_subset_monotone {Sat : Type} (sgp4 : Sat → ℚ → ℤ × Vec3)
    (sat1 sat2 : Sat) (now1 : ℚ) (hours1 step1 : ℕ) (now2 : ℚ)
    (hours2 step2 : ℕ)
    (hsub : ∀ dt ∈ sampleInstants now1 hours1 step1,
      dt ∈ sampleInstants now2 hours2 step2) :
    compute_min_distance sgp4 sat1 sat2 now2 hours2 step2
      ≤ compute_min_distance sgp4 sat1 sat2 now1 hours1 step1 := by
  rw [compute_min_distance_eq_listMin, compute_min_distance_eq_listMin]
  apply le_listMin
  intro d hd
  apply listMin_le_of_mem
  unfold availableDistances at hd ⊢
  rw [List.mem_filterMap] at hd ⊢
  obtain ⟨dt, hdt, hsome⟩ := hd
  exact ⟨dt, hsub dt hdt, hsome⟩

/-- C9 witness: the 1-hour/60-min window from instant 0 samples `{0}`, a
subset of the 2-hour/60-min window's `{0, 60}`; the larger window's minimum
is at most the smaller window's. -/
theorem C9_window_subset_witness :
    (∀ dt ∈ sampleInstants 0 1 60, dt ∈ sampleInstants 0 2 60) ∧
    compute_min_distance originProp () () 0 2 60
      ≤ compute_min_distance originProp () () 0 1 60 := by
  have e1 : sampleInstants 0 1 60 = [(0 : ℚ)] := by
    have hr : pyRange (1 * 60) 60 = [0] := by decide
    unfold sampleInstants
    rw [hr]
    simp
  have e2 : sampleInstants 0 2 60 = [(0 : ℚ), 60] := by
    have hr : pyRange (2 * 60) 60 = [0, 60] := by decide
    unfold sampleInstants
    rw [hr]
    simp
  have hsub : ∀ dt ∈ sampleInstants 0 1 60, dt ∈ sampleInstants 0 2 60 := by
    intro dt h
    rw [e1] at h
    rw [e2]
    simp only [List.mem_singleton] at h
    subst h
    simp
  exact ⟨hsub, C9_window_subset_monotone originProp () () 0 1 60 0 2 60 hsub⟩

/-- A propagator succeeding only at the instant 0: positions depend on the
absolute instant, hence on the clock reading at the call. -/
def clockProp : Unit → ℚ → ℤ × Vec3 :=
  fun _ dt => if dt = 0 then (0, (0, 0, 0)) else (1, (0, 0, 0))

/-- C3 (counterexample): with the same records, the same propagator and the
same window/step, a call whose `datetime.utcnow()` reads 0 and a call whose
clock reads 1 return different minima — the source's window start is the
wall-clock time at the call, so the result depends on when it is called. -/
theorem C3_counterexample :
    compute_min_distance clockProp () () 0 1 60
      ≠ compute_min_distance clockProp () () 1 1 60 := by
  have hrange : pyRange (1 * 60) 60 = [0] := by decide
  have h1 : compute_min_distance clockProp () () 0 1 60
      = ((pyNorm (vsub (0, 0, 0) (0, 0, 0)) : ℝ) : WithTop ℝ) := by
    unfold compute_min_distance
    rw [hrange]
    show loopStep clockProp () () 0 ⊤ 0 = _
    simp [loopStep, get_position, clockProp]
  have h2 : compute_min_distance clockProp () () 1 1 60 = ⊤ := by
    unfold compute_min_distance
    rw [hrange]
    show loopStep clockProp () () 1 ⊤ 0 = _
    simp [loopStep, get_position, clockProp]
  rw [h1, h2]
  exact WithTop.coe_ne_top

theorem foldl_loopStep_congr {Sat : Type} (sgp4 sgp4' : Sat → ℚ → ℤ × Vec3)
    (sat1 sat2 : Sat) (now : ℚ) (L : List ℕ) (acc : WithTop ℝ)
    (h : ∀ t ∈ L, sgp4 sat1 (now + (t : ℚ)) = sgp4' sat1 (now + (t : ℚ)) ∧
      sgp4 sat2 (now + (t : ℚ)) = sgp4' sat2 (now + (t : ℚ))) :
    L.foldl (loopStep sgp4 sat1 sat2 now) acc
      = L.foldl (loopStep sgp4' sat1 sat2 now) acc := by
  induction L generalizing acc with
  | nil => rfl
  | cons t L ih =>
      have ht := h t (List.mem_cons_self t L)
      have hstep : loopStep sgp4 sat1 sat2 now acc t
          = loopStep sgp4' sat1 sat2 now acc t := by
        simp only [loopStep, get_position]
        rw [ht.1, ht.2]
      rw [List.foldl_cons, List.foldl_cons, hstep]
      exact ih _ (fun u hu => h u (List.mem_cons_of_mem t hu))

/-- C3 (amended): the sampler is a deterministic function of the records,
the window/step, and the propagator's outputs at the sampled instants of the
window anchored at the clock reading `now` taken at the call: two calls
agreeing on that data return the same minimum.  (Calls at different times
anchor different windows and may differ, as the counterexample shows.) -/
theorem C3_determinism_amended {Sat : Type}
    (sgp4 sgp4' : Sat → ℚ → ℤ × Vec3) (sat1 sat2 : Sat) (now : ℚ)
    (hours step_minutes : ℕ)
    (h : ∀ t ∈ pyRange (hours * 60) step_minutes,
      sgp4 sat1 (now + (t : ℚ)) = sgp4' sat1 (now + (t : ℚ)) ∧
      sgp4 sat2 (now + (t : ℚ)) = sgp4' sat2 (now + (t : ℚ))) :
    compute_min_distance sgp4 sat1 sat2 now hours step_minutes
      = compute_min_distance sgp4' sat1 sat2 now hours step_minutes := by
  unfold compute_min_distance
  exact foldl_loopStep_congr sgp4 sgp4' sat1 sat2 now _ ⊤ h

/-- C3 (amended) witness: two calls sharing the clock reading 0 and the
propagator outputs over the default window coincide. -/
theorem C3_determinism_witness :
    (∀ t ∈ pyRange (24 * 60) 5,
      originProp () ((0 : ℚ) + (t : ℚ)) = originProp () ((0 : ℚ) + (t : ℚ)) ∧
      originProp () ((0 : ℚ) + (t : ℚ)) = originProp () ((0 : ℚ) + (t : ℚ))) ∧
    compute_min_distance originProp () () 0 24 5
      = compute_min_distance originProp () () 0 24 5 :=
  ⟨fun t _ => ⟨rfl, rfl⟩,
    C3_determinism_amended originProp originProp () () 0 24 5
      (fun t _ => ⟨rfl, rfl⟩)⟩

/-! ### Claims about the /predict route -/

theorem predict_not_found {Sat : Type} (catalog : Catalog Sat)
    (sgp4 : Sat → ℚ → ℤ × Vec3) (now : ℚ)
    (sat1_name sat2_name : Option String)
    (h : olookup sat1_name catalog = none ∨
      olookup sat2_name catalog = none) :
    predict catalog sgp4 now sat1_name sat2_name
      = PredictResult.badRequest 400 "Satellite not found in local TLEs" := by
  unfold predict
  cases h1 : olookup sat1_name catalog <;>
    cases h2 : olookup sat2_name catalog <;>
      simp [h1, h2] <;> rcases h with h | h <;> simp_all

/-- C5: a request naming an uncataloged satellite is answered with HTTP 400
and body `{"error": "Satellite not found in local TLEs"}`, and the response
does not depend on the propagator — no propagation or distance computation
takes place before the rejection. -/
theorem C5_unknown_satellite {Sat : Type} (catalog : Catalog Sat)
    (sgp4 : Sat → ℚ → ℤ × Vec3) (now : ℚ)
    (sat1_name sat2_name : Option String)
    (h : olookup sat1_name catalog = none ∨
      olookup sat2_name catalog = none) :
    predict catalog sgp4 now sat1_name sat2_name
      = PredictResult.badRequest 400 "Satellite not found in local TLEs" ∧
    ∀ sgp4' : Sat → ℚ → ℤ × Vec3,
      predict catalog sgp4 now sat1_name sat2_name
        = predict catalog sgp4' now sat1_name sat2_name := by
  refine ⟨predict_not_found catalog sgp4 now sat1_name sat2_name h,
    fun sgp4' => ?_⟩
  rw [predict_not_found catalog sgp4 now sat1_name sat2_name h,
    predict_not_found catalog sgp4' now sat1_name sat2_name h]

/-- C5 witness: the name `JUNK` is absent from the one-entry catalog
`{ISS}`; the request is rejected with the 400 body, for any propagator. -/
theorem C5_unknown_satellite_witness :
    (olookup (some "JUNK") ([("ISS", ())] : Catalog Unit) = none ∨
      olookup (some "ISS") ([("ISS", ())] : Catalog Unit) = none) ∧
    (predict [("ISS", ())] originProp 0 (some "JUNK") (some "ISS")
      = PredictResult.badRequest 400 "Satellite not found in local TLEs" ∧
    ∀ sgp4' : Unit → ℚ → ℤ × Vec3,
      predict [("ISS", ())] originProp 0 (some "JUNK") (some "ISS")
        = predict [("ISS", ())] sgp4' 0 (some "JUNK") (some "ISS")) :=
  ⟨Or.inl rfl,
    C5_unknown_satellite [("ISS", ())] originProp 0 (some "JUNK") (some "ISS")
      (Or.inl rfl)⟩

/-- C10: a request missing the `sat1` or `sat2` query parameter
(`request.args.get` yields `None`, which is never a dict key) is rejected
with exactly the unknown-satellite 400 response, independently of the
propagator: it never reaches the sampler and never raises. -/
theorem C10_missing_param {Sat : Type} (catalog : Catalog Sat)
    (sgp4 sgp4' : Sat → ℚ → ℤ × Vec3) (now : ℚ) (name : Option String) :
    predict catalog sgp4 now none name
      = PredictResult.badRequest 400 "Satellite not found in local TLEs" ∧
    predict catalog sgp4 now name none
      = PredictResult.badRequest 400 "Satellite not found in local TLEs" ∧
    predict catalog sgp4 now none name = predict catalog sgp4' now none name ∧
    predict catalog sgp4 now name none = predict catalog sgp4' now name none := by
  refine ⟨predict_not_found catalog sgp4 now none name (Or.inl rfl),
    predict_not_found catalog sgp4 now name none (Or.inr rfl), ?_, ?_⟩
  · rw [predict_not_found catalog sgp4 now none name (Or.inl rfl),
      predict_not_found catalog sgp4' now none name (Or.inl rfl)]
  · rw [predict_not_found catalog sgp4 now name none (Or.inr rfl),
      predict_not_found catalog sgp4' now name none (Or.inr rfl)]

/-- C1 (code slip, evaluated at a failing input): with two cataloged
satellites `A`, `B`, the `/predict` handler does not produce a response
carrying a minimum distance and a closest-approach time — it raises
`TypeError`, because `compute_min_distance` returns a bare float while
`app.py` line 46 unpacks `min_dist, closest_time` from it. -/
theorem C1_predict_raises_type_error :
    predict [("A", ()), ("B", ())] originProp 0 (some "A") (some "B")
      = PredictResult.typeError := rfl

/-- A concrete propagator that always reports an error. -/
def noneProp : Unit → ℚ → ℤ × Vec3 := fun _ _ => (1, (0, 0, 0))

/-- C2 (counterexample): with both satellites cataloged and every sample
instant unavailable, the surfaced `/predict` outcome is an uncaught
`TypeError` (HTTP 500), not an explicit "undetermined" result; and the
response-building code of app.py lines 52–76, applied to the sampler's
`inf` sentinel, derives risk category LOW from it and an infinite
`min_distance_km` — the sentinel is not kept out of user-facing output. -/
theorem C2_counterexample :
    predict [("A", ()), ("B", ())] noneProp 0 (some "A") (some "B")
      = PredictResult.typeError ∧
    (respond "A" "B" (compute_min_distance noneProp () () 0 24 5)
      none).risk_category = "LOW" ∧
    (respond "A" "B" (compute_min_distance noneProp () () 0 24 5)
      none).min_distance_km = ⊤ := by
  have hall : compute_min_distance noneProp () () 0 24 5 = ⊤ :=
    compute_min_distance_all_none noneProp () () 0 24 5 (fun t _ => rfl)
  refine ⟨rfl, ?_, ?_⟩
  · rw [hall]
    simp [respond, classify, not_top_lt]
  · rw [hall]
    rfl

/-- C2 (amended): when every sample instant has an unavailable position for
at least one of the two satellites, `compute_min_distance` returns the
`float("inf")` sentinel itself — there is no distinct "undetermined"
marker — and the endpoint's response code classifies that sentinel as risk
LOW with an infinite `min_distance_km` (while the endpoint as written
actually raises `TypeError` before responding, per C1). -/
theorem C2_inf_sentinel_amended {Sat : Type} (sgp4 : Sat → ℚ → ℤ × Vec3)
    (sat1 sat2 : Sat) (now : ℚ) (hours step_minutes : ℕ) (n1 n2 : String)
    (ct : Option ℚ)
    (h : ∀ t ∈ pyRange (hours * 60) step_minutes,
      get_position sgp4 sat1 (now + (t : ℚ)) = none ∨
      get_position sgp4 sat2 (now + (t : ℚ)) = none) :
    compute_min_distance sgp4 sat1 sat2 now hours step_minutes = ⊤ ∧
    (respond n1 n2 (compute_min_distance sgp4 sat1 sat2 now hours step_minutes)
      ct).risk_category = "LOW" ∧
    (respond n1 n2 (compute_min_distance sgp4 sat1 sat2 now hours step_minutes)
      ct).min_distance_km = ⊤ := by
  have hall : compute_min_distance sgp4 sat1 sat2 now hours step_minutes = ⊤ := by
    apply compute_min_distance_all_none
    intro t ht
    rcases h t ht with h1 | h1
    · simp [pairDistanceAt, h1]
    · cases hx : get_position sgp4 sat1 (now + (t : ℚ)) <;>
        simp [pairDistanceAt, hx, h1]
  refine ⟨hall, ?_, ?_⟩
  · rw [hall]
    simp [respond, classify, not_top_lt]
  · rw [hall]
    rfl

/-- C2 witness: the always-erroring propagator makes every sample instant
unavailable; the sentinel and LOW classification follow. -/
theorem C2_inf_sentinel_witness :
    (∀ t ∈ pyRange (24 * 60) 5,
      get_position noneProp () ((0 : ℚ) + (t : ℚ)) = none ∨
      get_position noneProp () ((0 : ℚ) + (t : ℚ)) = none) ∧
    (compute_min_distance noneProp () () 0 24 5 = ⊤ ∧
    (respond "A" "B" (compute_min_distance noneProp () () 0 24 5)
      none).risk_category = "LOW" ∧
    (respond "A" "B" (compute_min_distance noneProp () () 0 24 5)
      none).min_distance_km = ⊤) :=
  ⟨fun t _ => Or.inl rfl,
    C2_inf_sentinel_amended noneProp () () 0 24 5 "A" "B" none
      (fun t _ => Or.inl rfl)⟩

end SatPred
